import Mathlib

/-!
Verification of the pozor-dom relay core against its natural-language
specification.  The Rust sources are shallowly embedded: Rust strings become
`List Char`, the message-tagging helpers of `pozor-dom-shared/src/lib.rs`
become pure functions, the SQLite tables of `pozor-dom-hub/src/database.rs`
become association lists, and the per-frame branches of the Hub and Cloud
connection handlers become step functions producing explicit output lists.
-/

namespace PozorDom

/-- Rust string literals as character lists. -/
def str (s : String) : List Char := s.data

/-- Rust `char::is_whitespace`: the Unicode `White_Space` property
(U+0009..U+000D, U+0020, U+0085, U+00A0, U+1680, U+2000..U+200A,
U+2028, U+2029, U+202F, U+205F, U+3000). -/
def isRustWhitespace (c : Char) : Bool :=
  c = '\u0009' || c = '\u000A' || c = '\u000B' || c = '\u000C' || c = '\u000D' ||
  c = ' ' || c = '\u0085' || c = ' ' || c = ' ' ||
  (' ' ≤ c && c ≤ ' ') || c = ' ' || c = ' ' ||
  c = ' ' || c = ' ' || c = '　'

/-- Rust `str::trim_start`. -/
def trimStart (s : List Char) : List Char := s.dropWhile isRustWhitespace

/-- Rust `str::trim_end`. -/
def trimEnd (s : List Char) : List Char := (s.reverse.dropWhile isRustWhitespace).reverse

/-- Rust `str::trim`: drop leading and trailing whitespace. -/
def rustTrim (s : List Char) : List Char := trimEnd (trimStart s)

/-- Rust `str::strip_prefix`: `matchStart p s = some r` iff `s = p ++ r`. -/
def matchStart : List Char → List Char → Option (List Char)
  | [], s => some s
  | _ :: _, [] => none
  | p :: ps, c :: cs => if c = p then matchStart ps cs else none

/-- Rust `str::starts_with`. -/
def beginsWith (p s : List Char) : Bool := (matchStart p s).isSome

/-- Rust `str::contains` for a literal substring needle. -/
def containsSub (needle : List Char) : List Char → Bool
  | [] => beginsWith needle []
  | c :: rest => beginsWith needle (c :: rest) || containsSub needle rest

/-- `messages::HUB_BROADCAST_PREFIX` from pozor-dom-shared/src/lib.rs:38. -/
def hubBroadcastMarker : List Char := str "HUB_BROADCAST:"

/-- `messages::CLOUD_PREFIX` (lib.rs:39). -/
def cloudLabel : List Char := str "[CLOUD]"

/-- `messages::HUB_PREFIX` (lib.rs:40). -/
def hubLabel : List Char := str "[HUB]"

/-- `messages::RECEIVED_SUFFIX` (lib.rs:41). -/
def receivedMarker : List Char := str "received:"

/-- `messages::is_hub_broadcast` (lib.rs:43-45): `msg.starts_with(HUB_BROADCAST_PREFIX)`. -/
def is_hub_broadcast (msg : List Char) : Bool := beginsWith hubBroadcastMarker msg

/-- `messages::extract_hub_broadcast` (lib.rs:47-49):
`msg.strip_prefix(HUB_BROADCAST_PREFIX).unwrap_or(msg).trim()`. -/
def extract_hub_broadcast (msg : List Char) : List Char :=
  rustTrim (match matchStart hubBroadcastMarker msg with
            | some r => r
            | none => msg)

/-- `messages::create_hub_broadcast` (lib.rs:51-53): `format!("{} {}", PREFIX, content)`. -/
def create_hub_broadcast (content : List Char) : List Char :=
  hubBroadcastMarker ++ ' ' :: content

/-- `messages::is_response_message` (lib.rs:55-57): `msg.contains(RECEIVED_SUFFIX)`. -/
def is_response_message (msg : List Char) : Bool := containsSub receivedMarker msg

/-- `messages::create_cloud_message` (lib.rs:59-61). -/
def create_cloud_message (content : List Char) : List Char := cloudLabel ++ ' ' :: content

/-- `messages::create_hub_message` (lib.rs:63-65). -/
def create_hub_message (content : List Char) : List Char := hubLabel ++ ' ' :: content

/-- `messages::create_welcome_message` (lib.rs:67-69). -/
def create_welcome_message (component : List Char) : List Char :=
  str "Welcome to Pozor-dom " ++ component ++ str "!"

/-- `messages::create_echo_message` (lib.rs:71-73): `format!("{} received: {}", c, content)`. -/
def create_echo_message (component content : List Char) : List Char :=
  component ++ str " received: " ++ content

theorem matchStart_append (p t : List Char) : matchStart p (p ++ t) = some t := by
  induction p with
  | nil => rfl
  | cons c ps ih => simp [matchStart, ih]

theorem trimStart_space_cons (s : List Char) : trimStart (' ' :: s) = trimStart s := by
  simp [trimStart, List.dropWhile_cons, isRustWhitespace]

theorem rustTrim_space_cons (s : List Char) : rustTrim (' ' :: s) = rustTrim s := by
  simp [rustTrim, trimStart_space_cons]

/-- The strip-after-tag round trip computes exactly Rust's `trim` of the content. -/
theorem roundTrip_eq_trim (s : List Char) :
    extract_hub_broadcast (create_hub_broadcast s) = rustTrim s := by
  simp [extract_hub_broadcast, create_hub_broadcast, matchStart_append, rustTrim_space_cons]

end PozorDom

namespace PozorDom

/-- C1 (counterexample): the claimed round trip
`stripHubRelay(tagHubRelay(s)) == s` fails at the concrete string `"a "`:
`create_hub_broadcast` inserts a space before the content and
`extract_hub_broadcast` ends with `.trim()`, so the trailing space of the
original content is lost. -/
theorem c1_round_trip_counterexample :
    extract_hub_broadcast (create_hub_broadcast (str "a ")) ≠ str "a " := by
  decide

/-- C1 (amended): for every string with no leading or trailing whitespace
(`s.trim() == s`), stripping the hub-relay tag from the tagged form returns
the string unchanged; in general the round trip returns `s.trim()`. -/
theorem c1_round_trip_trimmed (s : List Char) (h : rustTrim s = s) :
    extract_hub_broadcast (create_hub_broadcast s) = s := by
  rw [roundTrip_eq_trim, h]

theorem c1_round_trip_trimmed_witness :
    rustTrim (str "test message") = str "test message" ∧
    extract_hub_broadcast (create_hub_broadcast (str "test message")) = str "test message" :=
  ⟨by decide, c1_round_trip_trimmed (str "test message") (by decide)⟩

end PozorDom

namespace PozorDom

/-- `DeviceTelemetry` from pozor-dom-shared/src/dashboard/lib.rs:14-21. -/
structure DeviceTelemetry where
  device_id : List Char
  channel : List Char
  temperature : List Char
  humidity : List Char
  signal_strength : Int
  timestamp : List Char
deriving DecidableEq

/-- `HubState` from dashboard/lib.rs:25-30; the `devices` HashMap is an
association list with unique keys maintained by `update_device`. -/
structure HubState where
  devices : List (List Char × DeviceTelemetry)
  messages : List (List Char)
  cloud_enabled : Bool
  service_name : List Char
deriving DecidableEq

/-- `HubState::new` (dashboard/lib.rs:34-41): empty maps, `cloud_enabled: false`. -/
def HubState.new (service_name : List Char) : HubState :=
  ⟨[], [], false, service_name⟩

/-- `HubState::update_device` (dashboard/lib.rs:43-45): HashMap upsert keyed by
`device_id`. -/
def HubState.update_device (s : HubState) (t : DeviceTelemetry) : HubState :=
  { s with devices :=
      (t.device_id, t) :: s.devices.filter (fun p => decide (p.1 ≠ t.device_id)) }

/-- `HubState::add_message` (dashboard/lib.rs:47-53): push, then evict the
oldest entry while more than 100 are stored. -/
def HubState.add_message (s : HubState) (m : List Char) : HubState :=
  let ms := s.messages ++ [m]
  { s with messages := if ms.length > 100 then ms.drop 1 else ms }

/-- `HubState::toggle_cloud` (dashboard/lib.rs:55-57). -/
def HubState.toggle_cloud (s : HubState) : HubState :=
  { s with cloud_enabled := !s.cloud_enabled }

/-- One row of the SQLite `devices` table (database.rs:17-25): the telemetry
columns plus `last_seen`. -/
structure DeviceRow where
  telemetry : DeviceTelemetry
  last_seen : List Char
deriving DecidableEq

/-- The SQLite state behind `Database` (database.rs:7-63): the `devices` table
(primary key `device_id`) and the `cloud_enabled` row of the `config` table
(`value` as a Bool plus `updated_at`); `none` when the row is absent. -/
structure Database where
  devices : List DeviceRow
  cloud_enabled_row : Option (Bool × List Char)
deriving DecidableEq

/-- `Database::save_device` (database.rs:66-86): `INSERT OR REPLACE` keyed by
the primary key `device_id`, with `last_seen` set to the current time `now`
(passed explicitly in place of `Utc::now()`). -/
def Database.save_device (db : Database) (now : List Char) (t : DeviceTelemetry) : Database :=
  { db with devices :=
      ⟨t, now⟩ :: db.devices.filter (fun r => decide (r.telemetry.device_id ≠ t.device_id)) }

/-- `Database::load_devices` (database.rs:88-113): select every row and fold it
into a map keyed by `device_id`. -/
def Database.load_devices (db : Database) : List (List Char × DeviceTelemetry) :=
  db.devices.map (fun r => (r.telemetry.device_id, r.telemetry))

/-- `Database::get_cloud_enabled` (database.rs:115-128): stored value, default
`true` when the config row is absent. -/
def Database.get_cloud_enabled (db : Database) : Bool :=
  match db.cloud_enabled_row with
  | some (v, _) => v
  | none => true

/-- `Database::set_cloud_enabled` (database.rs:130-141): `INSERT OR REPLACE`
of the flag, timestamped. -/
def Database.set_cloud_enabled (db : Database) (now : List Char) (enabled : Bool) : Database :=
  { db with cloud_enabled_row := some (enabled, now) }

/-- HashMap lookup on the map returned by `load_devices`. -/
def lookupDevice (m : List (List Char × DeviceTelemetry)) (id : List Char) :
    Option DeviceTelemetry :=
  (m.find? (fun p => decide (p.1 = id))).map Prod.snd

end PozorDom

namespace PozorDom

/-- C5: saving telemetry `t` and then loading yields a map sending
`t.device_id` to `t` with every field intact, and a later save for the same
`device_id` fully replaces the earlier row (the database after the second
save is the same as if the first save had never happened). -/
theorem c5_save_then_load (db : Database) (now now' : List Char)
    (t t' : DeviceTelemetry) (h : t'.device_id = t.device_id) :
    lookupDevice (db.save_device now t).load_devices t.device_id = some t ∧
    (db.save_device now t).save_device now' t' = db.save_device now' t' := by
  constructor
  · simp [Database.save_device, Database.load_devices, lookupDevice, List.find?_cons]
  · simp [Database.save_device, h, List.filter_filter]

theorem c5_save_then_load_witness :
    (⟨str "dev-1", str "WiFi", str "22.0", str "60.0", -40, str "T1"⟩ :
        DeviceTelemetry).device_id =
      (⟨str "dev-1", str "BLE", str "21.0", str "55.0", -45, str "T0"⟩ :
        DeviceTelemetry).device_id ∧
    (lookupDevice
        ((⟨[], none⟩ : Database).save_device (str "now")
          ⟨str "dev-1", str "BLE", str "21.0", str "55.0", -45, str "T0"⟩).load_devices
        (str "dev-1") =
      some ⟨str "dev-1", str "BLE", str "21.0", str "55.0", -45, str "T0"⟩ ∧
    ((⟨[], none⟩ : Database).save_device (str "now")
          ⟨str "dev-1", str "BLE", str "21.0", str "55.0", -45, str "T0"⟩).save_device
        (str "later") ⟨str "dev-1", str "WiFi", str "22.0", str "60.0", -40, str "T1"⟩ =
      (⟨[], none⟩ : Database).save_device (str "later")
        ⟨str "dev-1", str "WiFi", str "22.0", str "60.0", -40, str "T1"⟩) :=
  ⟨by decide,
    c5_save_then_load ⟨[], none⟩ (str "now") (str "later")
      ⟨str "dev-1", str "BLE", str "21.0", str "55.0", -45, str "T0"⟩
      ⟨str "dev-1", str "WiFi", str "22.0", str "60.0", -40, str "T1"⟩ (by decide)⟩

end PozorDom

namespace PozorDom

/-- `CloudCommand` from pozor-dom-hub/src/main.rs:11-15. -/
inductive CloudCommand where
  | connect : CloudCommand
  | disconnect : CloudCommand
deriving DecidableEq

/-- The JSON body returned by both toggle handlers:
`{"cloud_enabled": ..., "message": "Cloud <en/dis>abled for <service>"}`. -/
structure ToggleReply where
  cloud_enabled : Bool
  message : List Char
deriving DecidableEq

/-- The `format!("Cloud {} for {}", ...)` string of the toggle handlers. -/
def toggleReplyMessage (enabled : Bool) (service : List Char) : List Char :=
  str "Cloud " ++ (if enabled then str "enabled" else str "disabled") ++
    str " for " ++ service

/-- The Hub's `toggle_cloud` HTTP handler (pozor-dom-hub/src/main.rs:299-331):
flip the in-memory flag, persist the new value via
`Database::set_cloud_enabled` before returning, and issue `Connect` when the
flag went false→true, `Disconnect` when it went true→false.  Returns the new
state, the new database, the issued command, and the JSON reply. -/
def hubToggleCloud (now : List Char) (state : HubState) (db : Database) :
    HubState × Database × Option CloudCommand × ToggleReply :=
  let was := state.cloud_enabled
  let state' := state.toggle_cloud
  let isNow := state'.cloud_enabled
  let db' := db.set_cloud_enabled now isNow
  let cmd : Option CloudCommand :=
    if !was && isNow then some CloudCommand.connect
    else if was && !isNow then some CloudCommand.disconnect
    else none
  (state', db', cmd, ⟨isNow, toggleReplyMessage isNow state'.service_name⟩)

/-- The Cloud's `toggle_cloud` HTTP handler (pozor-dom-cloud/src/main.rs:306-315):
it receives only the in-memory state — no database handle and no command
channel appear in its signature — flips the flag and returns the JSON reply. -/
def cloudToggleCloud (state : HubState) : HubState × ToggleReply :=
  let state' := state.toggle_cloud
  (state', ⟨state'.cloud_enabled, toggleReplyMessage state'.cloud_enabled state'.service_name⟩)

end PozorDom

namespace PozorDom

/-- C9: on the Hub, toggling `cloud_enabled` twice returns it to its original
value; each single toggle hands back a database in which the new flag value
has been stored (so `get_cloud_enabled` now reads the new value), and the
matching command is issued: `Connect` exactly when the flag became true,
`Disconnect` exactly when it became false. -/
theorem c9_toggle_persists_and_commands (now now' : List Char)
    (state : HubState) (db : Database) :
    (hubToggleCloud now' (hubToggleCloud now state db).1
        (hubToggleCloud now state db).2.1).1.cloud_enabled = state.cloud_enabled ∧
    (hubToggleCloud now state db).2.1.get_cloud_enabled =
      (hubToggleCloud now state db).1.cloud_enabled ∧
    (hubToggleCloud now state db).2.2.1 =
      some (if state.cloud_enabled then CloudCommand.disconnect else CloudCommand.connect) := by
  cases h : state.cloud_enabled <;>
    simp [hubToggleCloud, HubState.toggle_cloud, Database.set_cloud_enabled,
      Database.get_cloud_enabled, h]

/-- C10: on the Cloud service, the toggle handler flips only the in-memory
`cloud_enabled` flag: the devices map, the messages log and the service name
are returned unchanged, and — as its embedding's type records, mirroring the
Rust signature — it touches no database and issues no `CloudCommand`.  A
fresh `HubState` starts with `cloud_enabled = false`, so the first toggle
after Cloud startup reports `cloud_enabled == true`. -/
theorem c10_cloud_toggle_frame (state : HubState) :
    (cloudToggleCloud state).1 = { state with cloud_enabled := !state.cloud_enabled } ∧
    (cloudToggleCloud state).1.devices = state.devices ∧
    (cloudToggleCloud state).1.messages = state.messages ∧
    (cloudToggleCloud state).1.service_name = state.service_name ∧
    (HubState.new (str "Cloud")).cloud_enabled = false ∧
    (cloudToggleCloud (HubState.new (str "Cloud"))).2.cloud_enabled = true := by
  refine ⟨rfl, rfl, rfl, rfl, rfl, rfl⟩

end PozorDom

namespace PozorDom

/-- One observable effect of the Cloud's per-connection text-frame branch
(pozor-dom-cloud/src/main.rs:107-161): a channel send to a registered peer,
a direct write back to the sender, or an update of the cloud state's device
map. -/
inductive CloudSend where
  | toPeer : List Char → List Char → CloudSend
  | toSender : List Char → CloudSend
  | updateDevice : DeviceTelemetry → CloudSend
deriving DecidableEq

/-- Is this effect the echo written back to the sender? -/
def CloudSend.isEchoToSender : CloudSend → Bool
  | CloudSend.toSender _ => true
  | _ => false

/-- The `format!("[{}] {}", addr, text)` envelope of main.rs:145. -/
def addrEnvelope (addr text : List Char) : List Char :=
  '[' :: addr ++ ']' :: ' ' :: text

/-- The recipient snapshot of pozor-dom-cloud/src/main.rs:136-142: the peers
whose address differs from the sender's, collected under the lock before any
send happens. -/
def broadcastRecipients (peers : List (List Char)) (addr : List Char) : List (List Char) :=
  peers.filter (fun p => decide (p ≠ addr))

/-- The send loop of main.rs:146-150: one send attempt per snapshotted
recipient; a failure (per the `fails` oracle) is only recorded, it does not
stop the loop, and every attempt happens after the snapshot was taken. -/
def sendToAll (fails : List Char → Bool) (recipients : List (List Char))
    (msg : List Char) : List (List Char × List Char × Bool) :=
  recipients.map (fun r => (r, msg, fails r))

/-- The Cloud's `handle_connection` branch for `Message::Text` frames
(pozor-dom-cloud/src/main.rs:107-161).  `parse` stands for
`serde_json::from_str::<DeviceTelemetry>`; `peers` is the registered peer
map's key set, `addr` the sender.  A `HUB_BROADCAST`-tagged frame is stripped
and either absorbed as telemetry or relayed to every peer under the `[HUB]`
label; any other frame is sent to all peers except the sender under the
address envelope, followed by an echo to the sender unless the frame is
itself a response message. -/
def cloudHandleText (parse : List Char → Option DeviceTelemetry)
    (peers : List (List Char)) (addr text : List Char) : List CloudSend :=
  if is_hub_broadcast text then
    let content := extract_hub_broadcast text
    match parse content with
    | some t => [CloudSend.updateDevice t]
    | none => peers.map (fun p => CloudSend.toPeer p (create_hub_message content))
  else
    (broadcastRecipients peers addr).map
      (fun p => CloudSend.toPeer p (addrEnvelope addr text)) ++
    (if is_response_message text then []
     else [CloudSend.toSender (create_echo_message (str "Cloud") text)])

theorem beginsWith_append (p t : List Char) : beginsWith p (p ++ t) = true := by
  simp [beginsWith, matchStart_append]

theorem containsSub_of_beginsWith {n s : List Char} (h : beginsWith n s = true) :
    containsSub n s = true := by
  cases s with
  | nil => simpa [containsSub] using h
  | cons c rest => simp [containsSub, h]

theorem containsSub_append_left (n a s : List Char) (h : containsSub n s = true) :
    containsSub n (a ++ s) = true := by
  induction a with
  | nil => simpa using h
  | cons c a ih => simp [containsSub, ih]

end PozorDom

namespace PozorDom

/-- C3: `is_response_message (create_echo_message c s) = true` for all
component names `c` and contents `s`, and a text frame already classified as
a response never makes the Cloud handler emit an echo back to its sender
(every effect it produces is a peer relay or a state update, never
`toSender`), so a reply is never replied to. -/
theorem c3_echo_never_reechoed (c s : List Char)
    (parse : List Char → Option DeviceTelemetry)
    (peers : List (List Char)) (addr text : List Char)
    (h : is_response_message text = true) :
    is_response_message (create_echo_message c s) = true ∧
    (cloudHandleText parse peers addr text).all
      (fun o => !o.isEchoToSender) = true := by
  constructor
  · have : containsSub receivedMarker (receivedMarker ++ (' ' :: s)) = true :=
      containsSub_of_beginsWith (beginsWith_append _ _)
    have hc : create_echo_message c s =
        (c ++ [' ']) ++ (receivedMarker ++ (' ' :: s)) := by
      simp [create_echo_message, receivedMarker, str]
    rw [is_response_message, hc]
    exact containsSub_append_left _ _ _ this
  · rw [cloudHandleText]
    by_cases hb : is_hub_broadcast text = true
    · simp only [hb, if_true]
      cases parse (extract_hub_broadcast text) with
      | some t => simp [CloudSend.isEchoToSender]
      | none => simp [List.all_eq_true, CloudSend.isEchoToSender]
    · simp only [Bool.not_eq_true] at hb
      simp [hb, h, List.all_eq_true, CloudSend.isEchoToSender]

theorem c3_echo_never_reechoed_witness :
    is_response_message (str "Hub received: hi") = true ∧
    is_response_message (create_echo_message (str "Cloud") (str "hello")) = true ∧
    (cloudHandleText (fun _ => none) [str "p1", str "p2"] (str "p1")
        (str "Hub received: hi")).all (fun o => !o.isEchoToSender) = true :=
  ⟨by decide,
    (c3_echo_never_reechoed (str "Cloud") (str "hello") (fun _ => none)
      [str "p1", str "p2"] (str "p1") (str "Hub received: hi") (by decide)).1,
    (c3_echo_never_reechoed (str "Cloud") (str "hello") (fun _ => none)
      [str "p1", str "p2"] (str "p1") (str "Hub received: hi") (by decide)).2⟩

end PozorDom

namespace PozorDom

/-- C6: with `peers` the distinct registered addresses (the peer map's keys)
and `addr ∈ peers` the sender, the snapshotted recipient list has exactly
`N − 1` entries: every other registered peer appears exactly once and the
sender does not appear; and the send loop makes one attempt per snapshotted
recipient regardless of which sends fail, so one peer's failure aborts no
other delivery. -/
theorem count_one_of_nodup_mem {l : List (List Char)} {a : List Char}
    (h : l.Nodup) (ha : a ∈ l) : l.count a = 1 := by
  induction l with
  | nil => cases ha
  | cons b l ih =>
    rcases List.mem_cons.mp ha with rfl | hmem
    · have hnot : a ∉ l := (List.nodup_cons.mp h).1
      simp [List.count_cons, List.count_eq_zero.mpr hnot]
    · have hba : b ≠ a := fun e => (List.nodup_cons.mp h).1 (e ▸ hmem)
      simp [List.count_cons, ih (List.nodup_cons.mp h).2 hmem, hba]

theorem broadcastRecipients_length {peers : List (List Char)} {addr : List Char}
    (hnd : peers.Nodup) (haddr : addr ∈ peers) :
    (broadcastRecipients peers addr).length = peers.length - 1 := by
  induction peers with
  | nil => cases haddr
  | cons p ps ih =>
    rcases List.mem_cons.mp haddr with rfl | hmem
    · have hnot : addr ∉ ps := (List.nodup_cons.mp hnd).1
      have : broadcastRecipients (addr :: ps) addr = ps := by
        simp only [broadcastRecipients, List.filter_cons]
        rw [if_neg (by simp)]
        exact List.filter_eq_self.mpr (fun b hb => by
          simp only [decide_eq_true_eq]
          exact fun hba => hnot (hba ▸ hb))
      simp [this]
    · have ihl := ih (List.nodup_cons.mp hnd).2 hmem
      have hpa : p ≠ addr := fun hpe => (List.nodup_cons.mp hnd).1 (hpe ▸ hmem)
      have hlen : 1 ≤ ps.length := List.length_pos.mpr (List.ne_nil_of_mem hmem)
      rw [broadcastRecipients] at ihl ⊢
      rw [List.filter_cons, if_pos (by simpa using hpa)]
      simp only [List.length_cons]
      omega

theorem sendToAll_fst (fails : List Char → Bool) (msg : List Char) :
    ∀ recips, (sendToAll fails recips msg).map Prod.fst = recips
  | [] => rfl
  | r :: rs => by
    have ih := sendToAll_fst fails msg rs
    simp only [sendToAll, List.map_cons] at ih ⊢
    rw [ih]

theorem c6_broadcast_excludes_sender (peers : List (List Char))
    (addr q msg : List Char) (fails : List Char → Bool)
    (hnd : peers.Nodup) (haddr : addr ∈ peers) (hq : q ∈ peers) (hqa : q ≠ addr) :
    (broadcastRecipients peers addr).length = peers.length - 1 ∧
    (broadcastRecipients peers addr).count q = 1 ∧
    (broadcastRecipients peers addr).count addr = 0 ∧
    (sendToAll fails (broadcastRecipients peers addr) msg).map Prod.fst =
      broadcastRecipients peers addr := by
  refine ⟨broadcastRecipients_length hnd haddr, ?_, ?_, sendToAll_fst fails msg _⟩
  · exact count_one_of_nodup_mem (List.Nodup.filter _ hnd)
      (by simp [broadcastRecipients, List.mem_filter, hq, hqa])
  · exact List.count_eq_zero.mpr (by simp [broadcastRecipients, List.mem_filter])

theorem c6_broadcast_excludes_sender_witness :
    ([str "a", str "b", str "c"].Nodup ∧ str "b" ∈ [str "a", str "b", str "c"] ∧
      str "c" ∈ [str "a", str "b", str "c"] ∧ str "c" ≠ str "b") ∧
    ((broadcastRecipients [str "a", str "b", str "c"] (str "b")).length =
        [str "a", str "b", str "c"].length - 1 ∧
      (broadcastRecipients [str "a", str "b", str "c"] (str "b")).count (str "c") = 1 ∧
      (broadcastRecipients [str "a", str "b", str "c"] (str "b")).count (str "b") = 0 ∧
      (sendToAll (fun p => decide (p = str "a")) (broadcastRecipients
          [str "a", str "b", str "c"] (str "b")) (str "msg")).map Prod.fst =
        broadcastRecipients [str "a", str "b", str "c"] (str "b")) :=
  ⟨⟨by decide, by decide, by decide, by decide⟩,
    c6_broadcast_excludes_sender [str "a", str "b", str "c"] (str "b") (str "c")
      (str "msg") (fun p => decide (p = str "a"))
      (by decide) (by decide) (by decide) (by decide)⟩

end PozorDom

namespace PozorDom

/-- The outcome of one MQTT telemetry event in `listen_and_process_telemetry`
(pozor-dom-hub/src/main.rs:127-156): the database and in-memory state after
the event, plus every payload sent on the broadcast channel. -/
structure TelemetryStep where
  db : Database
  state : HubState
  broadcasts : List (List Char)
deriving DecidableEq

/-- One UTF-8 payload of `listen_and_process_telemetry`
(pozor-dom-hub/src/main.rs:127-156).  `parse` stands for
`serde_json::from_str::<DeviceTelemetry>`.  A payload that parses is saved to
the database and merged into the in-memory state; a payload that fails to
parse is only logged, leaving both untouched.  In either case the raw payload
is then sent on the broadcast channel (main.rs:155 sits outside the match). -/
def listen_step (parse : List Char → Option DeviceTelemetry) (now : List Char)
    (db : Database) (state : HubState) (payload : List Char) : TelemetryStep :=
  match parse payload with
  | some t => ⟨db.save_device now t, state.update_device t, [payload]⟩
  | none => ⟨db, state, [payload]⟩

/-- The ingestion loop over a sequence of inbound payloads: the `loop` of
`listen_and_process_telemetry` keeps polling after every event, so each
payload is handled by `listen_step` from the state the previous one left. -/
def listen_loop (parse : List Char → Option DeviceTelemetry) (now : List Char)
    (db : Database) (state : HubState) : List (List Char) → TelemetryStep
  | [] => ⟨db, state, []⟩
  | p :: ps =>
    let r := listen_step parse now db state p
    let rest := listen_loop parse now r.db r.state ps
    ⟨rest.db, rest.state, r.broadcasts ++ rest.broadcasts⟩

/-- The Hub's `GET /api/devices` handler (pozor-dom-hub/src/main.rs:225-240):
`db.load_devices()` and collect the values. -/
def api_devices (db : Database) : List DeviceTelemetry :=
  db.load_devices.map Prod.snd

end PozorDom

namespace PozorDom

/-- C4 (counterexample): a payload that fails to parse as `DeviceTelemetry`
is not discarded — `listen_and_process_telemetry` still sends the raw payload
on the broadcast channel (main.rs:155 runs unconditionally), exactly as it
does for a successfully parsed telemetry payload. -/
theorem c4_malformed_still_broadcast :
    (listen_step (fun _ => none) (str "now") ⟨[], none⟩ (HubState.new (str "Hub"))
        (str "not-json")).broadcasts = [str "not-json"] ∧
    str "not-json" ≠ [] := by
  exact ⟨rfl, by decide⟩

/-- C4 (amended): a payload that fails to parse as `DeviceTelemetry` is
logged and leaves the database and the in-memory device state unchanged — so
a subsequent `GET /api/devices` is exactly what it was before — and the
ingestion loop goes on to process the remaining payloads as if the malformed
one had never arrived; the raw payload is, however, still relayed verbatim on
the broadcast channel to the WebSocket clients. -/
theorem c4_malformed_not_persisted (parse : List Char → Option DeviceTelemetry)
    (now : List Char) (db : Database) (state : HubState)
    (payload : List Char) (ps : List (List Char))
    (h : parse payload = none) :
    (listen_step parse now db state payload).db = db ∧
    (listen_step parse now db state payload).state = state ∧
    api_devices (listen_step parse now db state payload).db = api_devices db ∧
    (listen_loop parse now db state (payload :: ps)).db =
      (listen_loop parse now db state ps).db ∧
    (listen_loop parse now db state (payload :: ps)).state =
      (listen_loop parse now db state ps).state ∧
    (listen_loop parse now db state (payload :: ps)).broadcasts =
      payload :: (listen_loop parse now db state ps).broadcasts := by
  refine ⟨?_, ?_, ?_, ?_, ?_, ?_⟩ <;> simp [listen_loop, listen_step, h]

theorem c4_malformed_not_persisted_witness :
    ((fun _ => none : List Char → Option DeviceTelemetry) (str "not-json") = none) ∧
    ((listen_step (fun _ => none) (str "now") ⟨[], none⟩ (HubState.new (str "Hub"))
        (str "not-json")).db = ⟨[], none⟩ ∧
      (listen_step (fun _ => none) (str "now") ⟨[], none⟩ (HubState.new (str "Hub"))
        (str "not-json")).state = HubState.new (str "Hub") ∧
      api_devices (listen_step (fun _ => none) (str "now") ⟨[], none⟩
          (HubState.new (str "Hub")) (str "not-json")).db = api_devices ⟨[], none⟩ ∧
      (listen_loop (fun _ => none) (str "now") ⟨[], none⟩ (HubState.new (str "Hub"))
          [str "not-json", str "x"]).db =
        (listen_loop (fun _ => none) (str "now") ⟨[], none⟩ (HubState.new (str "Hub"))
          [str "x"]).db ∧
      (listen_loop (fun _ => none) (str "now") ⟨[], none⟩ (HubState.new (str "Hub"))
          [str "not-json", str "x"]).state =
        (listen_loop (fun _ => none) (str "now") ⟨[], none⟩ (HubState.new (str "Hub"))
          [str "x"]).state ∧
      (listen_loop (fun _ => none) (str "now") ⟨[], none⟩ (HubState.new (str "Hub"))
          [str "not-json", str "x"]).broadcasts =
        str "not-json" :: (listen_loop (fun _ => none) (str "now") ⟨[], none⟩
          (HubState.new (str "Hub")) [str "x"]).broadcasts) :=
  ⟨rfl, c4_malformed_not_persisted (fun _ => none) (str "now") ⟨[], none⟩
    (HubState.new (str "Hub")) (str "not-json") [str "x"] rfl⟩

end PozorDom

namespace PozorDom

/-- One observable effect of the Hub's `handle_client` branch for
`Message::Text` frames (pozor-dom-hub/src/websocket.rs:55-69): publishing a
device command on MQTT, or publishing the frame on the shared broadcast
channel. -/
inductive HubClientEffect where
  | mqttCommand : List Char → HubClientEffect
  | busPublish : List Char → HubClientEffect
deriving DecidableEq

/-- The Hub's `handle_client` text branch (websocket.rs:55-69).
`isCommandJson` stands for `serde_json::from_str::<Value>` succeeding with
`json["type"] == "command"`.  A command frame is relayed to MQTT; every frame
is then published verbatim on the broadcast channel (websocket.rs:68). -/
def hubHandleClientText (isCommandJson : List Char → Bool) (text : List Char) :
    List HubClientEffect :=
  (if isCommandJson text then [HubClientEffect.mqttCommand text] else []) ++
  [HubClientEffect.busPublish text]

/-- The per-client delivery pump (websocket.rs:81-88): a message received from
the broadcast channel is written to the client's socket verbatim. -/
def hubClientPumpDeliver (busText : List Char) : List Char := busText

/-- The Cloud-link read branch (websocket.rs:124-132): a text frame received
from Cloud is published on the broadcast channel verbatim. -/
def cloudLinkPublish (text : List Char) : List Char := text

/-- The Cloud-link write branch (websocket.rs:116-122): every message received
from the broadcast channel — to which the Cloud-link task itself subscribes at
websocket.rs:112 — is sent to Cloud verbatim. -/
def cloudLinkForward (busText : List Char) : List Char := busText

end PozorDom

namespace PozorDom

/-- C2 (the code contradicts the claim): take the text frame
`"HUB_BROADCAST: hello"` received from the Cloud link.  The Hub publishes it
on the broadcast channel verbatim — the hub-relay tag is not stripped and no
`[CLOUD]`/`[HUB]` display label is added — and, because the Cloud-link task
subscribes to the very channel it publishes on, the same frame is then
forwarded back toward Cloud unchanged, violating the one-hop rule. -/
theorem c2_cloud_frame_relayed_back_verbatim :
    cloudLinkPublish (str "HUB_BROADCAST: hello") = str "HUB_BROADCAST: hello" ∧
    is_hub_broadcast (cloudLinkPublish (str "HUB_BROADCAST: hello")) = true ∧
    beginsWith cloudLabel (cloudLinkPublish (str "HUB_BROADCAST: hello")) = false ∧
    beginsWith hubLabel (cloudLinkPublish (str "HUB_BROADCAST: hello")) = false ∧
    cloudLinkForward (cloudLinkPublish (str "HUB_BROADCAST: hello")) =
      str "HUB_BROADCAST: hello" := by
  decide

/-- C7 (the code contradicts the claim): take the chat frame `"hello"`
received from a local peer.  The Hub's only relay action is to publish the
frame verbatim on the broadcast channel; each local peer's pump then delivers
it with no address-prefixed envelope, and the Cloud-link pump forwards it to
Cloud verbatim — it is not wrapped in the `HUB_BROADCAST` tag
(`create_hub_broadcast` is never applied). -/
theorem c7_local_frame_forwarded_verbatim :
    hubHandleClientText (fun _ => false) (str "hello") =
      [HubClientEffect.busPublish (str "hello")] ∧
    hubClientPumpDeliver (str "hello") = str "hello" ∧
    cloudLinkForward (str "hello") = str "hello" ∧
    is_hub_broadcast (cloudLinkForward (str "hello")) = false ∧
    cloudLinkForward (str "hello") ≠ create_hub_broadcast (str "hello") := by
  decide

end PozorDom

namespace PozorDom

/-- How one pass of `connect_to_cloud`'s outer `loop`
(pozor-dom-hub/src/websocket.rs:106-143) ended: the `connect_async` call
itself failed, or the connection succeeded and the established link later
ended (send error, receive error, or remote close breaking the inner loop). -/
inductive LinkEvent where
  | attemptFailed : LinkEvent
  | linkClosed : LinkEvent
deriving DecidableEq

/-- The delay, in seconds, that `connect_to_cloud` sleeps before looping back
to the next connect attempt: `sleep(Duration::from_secs(5))` sits only in the
`Err` branch of `connect_async` (websocket.rs:138-141); after an established
link ends, the loop continues immediately (websocket.rs:136). -/
def retryDelaySecs : LinkEvent → Nat
  | LinkEvent.attemptFailed => 5
  | LinkEvent.linkClosed => 0

/-- The outer loop of `connect_to_cloud` over a sequence of link outcomes:
every outcome is followed by its delay and another attempt — the loop never
exits. -/
def connectToCloudTrace (events : List LinkEvent) : List (LinkEvent × Nat) :=
  events.map (fun e => (e, retryDelaySecs e))

/-- One command step of `manage_cloud_connection`
(pozor-dom-hub/src/main.rs:169-205).  The state is whether a link task is
active (`current_task.is_some()`); the result is the new state plus whether a
new link task was spawned.  `Connect` with an active task is ignored
(main.rs:180-182); `Disconnect` aborts any active task. -/
def manageCloudStep (taskActive : Bool) : CloudCommand → Bool × Bool
  | CloudCommand.connect => if taskActive then (taskActive, false) else (true, true)
  | CloudCommand.disconnect => (false, false)

end PozorDom

namespace PozorDom

/-- C8 (counterexample): when an established Cloud link ends — covering both
link errors and a close by the remote side — `connect_to_cloud` retries with
no delay at all: the fixed 5-second sleep claimed for this case is only
executed when the connect attempt itself fails. -/
theorem c8_no_delay_after_link_close :
    retryDelaySecs LinkEvent.linkClosed = 0 ∧
    retryDelaySecs LinkEvent.linkClosed ≠ 5 := by
  decide

/-- C8 (amended): the supervisor retries indefinitely while no `Disconnect`
has been issued — every link outcome in a run is followed by another connect
attempt — but the fixed 5-second delay is taken only after a failed connect
attempt; after an established link fails or is closed by the remote side the
next attempt is immediate.  A `Connect` command received while a link task is
already active is ignored, and `Disconnect` clears the active task. -/
theorem c8_retry_policy (events : List LinkEvent) :
    retryDelaySecs LinkEvent.attemptFailed = 5 ∧
    retryDelaySecs LinkEvent.linkClosed = 0 ∧
    (connectToCloudTrace events).length = events.length ∧
    (connectToCloudTrace events).map Prod.fst = events ∧
    manageCloudStep true CloudCommand.connect = (true, false) ∧
    manageCloudStep false CloudCommand.connect = (true, true) ∧
    manageCloudStep true CloudCommand.disconnect = (false, false) := by
  refine ⟨rfl, rfl, by simp [connectToCloudTrace], ?_, rfl, rfl, rfl⟩
  induction events with
  | nil => rfl
  | cons e es ih =>
    simp only [connectToCloudTrace, List.map_cons] at ih ⊢
    rw [ih]

end PozorDom
